import Mathlib

/-
Verification of the adaptive concurrent harvesting pipeline of the
amazon-scraper repository: a shallow embedding of the concurrency core in
workers.py (auto_concurrency_manager, worker_task, process_single_store,
http_form_submitter_worker) and the orchestration in scraper.py
(process_urls), together with proofs of the specified properties.

Python floats that only carry percentages, seconds and failure rates are
modelled exactly over the rationals; Python ints are modelled as Nat
(all quantities involved are non-negative in the source).
-/

/- ===================== Auto-Concurrency Controller =====================
   workers.py, auto_concurrency_manager (lines 20-73).  Each iteration of
   the `while True` loop is one tick; the inputs a tick reads from the
   environment (the event-loop clock, the pruned failure window length and
   the psutil CPU / memory samples) are collected in `TickInput`. -/

/-- Configuration passed to auto_concurrency_manager (auto_min, auto_max,
cpu_upper, cpu_lower, mem_upper, check_interval, cooldown). -/
structure AutoConfig where
  autoMin : Nat
  autoMax : Nat
  cpuUpper : ℚ
  cpuLower : ℚ
  memUpper : ℚ
  checkInterval : ℚ
  cooldown : ℚ
  deriving Repr, DecidableEq

/-- The controller-visible mutable state: concurrency_limit_ref['value']
and last_change_ref['value']. -/
structure CtrlState where
  limit : Nat
  lastChange : ℚ
  deriving Repr, DecidableEq

/-- Environment inputs read during one tick: `now` from the event loop
clock, the length of the pruned failure-timestamp window, and the CPU and
memory percentages sampled by psutil. -/
structure TickInput where
  now : ℚ
  recentFailures : Nat
  cpu : ℚ
  mem : ℚ
  deriving Repr, DecidableEq

/-- Observable effects of one tick: the state after the tick, the length
of the final `asyncio.sleep`, whether `concurrency_condition.notify_all()`
ran, whether the failure-rate branch fired, and the increment applied by
the resource branch (-1, 0 or +1). -/
structure TickResult where
  state : CtrlState
  sleptSeconds : ℚ
  notifiedAll : Bool
  failureBranchFired : Bool
  resourceAdjustment : Int
  deriving Repr, DecidableEq

/-- `estimated_throughput = concurrency_limit_ref['value'] * 30` (line 40). -/
def estimated_throughput (limit : Nat) : Nat := limit * 30

/-- `failure_rate = recent_failure_count / max(estimated_throughput, 1)`
(line 41), computed exactly over the rationals. -/
def failure_rate (limit recentFailures : Nat) : ℚ :=
  (recentFailures : ℚ) / ((max (estimated_throughput limit) 1 : Nat) : ℚ)

/-- The two clamping statements of lines 67-70: cap at auto_max, then
raise to auto_min. -/
def clampLimit (cfg : AutoConfig) (l : Nat) : Nat :=
  let l1 := if l > cfg.autoMax then cfg.autoMax else l
  if l1 < cfg.autoMin then cfg.autoMin else l1

/-- One iteration of the auto_concurrency_manager loop (lines 31-73).

Failure branch (lines 43-51): if failure_rate > 0.05 and the cooldown has
elapsed, the limit becomes `max(auto_min, int(limit * 0.5))` (for the
Nat-valued limit, `int(limit * 0.5)` is floor division by 2), last_change
is stamped to now, all waiters are notified, and the tick ends with
`await asyncio.sleep(cooldown * 2); continue`, skipping the resource
branch.  When failure_rate > 0.05 but the cooldown has not elapsed, the
code falls through to the resource section whose own cooldown guard is
then also false, so merging the two tests into one conjunction is
behaviour-preserving.

Resource branch (lines 53-73): when the cooldown has elapsed, decrement
by one if (cpu > cpu_upper or mem > mem_upper) and limit > auto_min, else
increment by one if cpu < cpu_lower and mem < mem_upper and
limit < auto_max; then clamp into [auto_min, auto_max] and notify all
waiters; finally sleep check_interval. -/
def auto_concurrency_tick (cfg : AutoConfig) (st : CtrlState) (inp : TickInput) :
    TickResult :=
  if failure_rate st.limit inp.recentFailures > 1/20 ∧
      inp.now - st.lastChange ≥ cfg.cooldown then
    { state := { limit := max cfg.autoMin (st.limit / 2), lastChange := inp.now }
      sleptSeconds := cfg.cooldown * 2
      notifiedAll := true
      failureBranchFired := true
      resourceAdjustment := 0 }
  else if inp.now - st.lastChange ≥ cfg.cooldown then
    let adjusted : Nat × ℚ × Int :=
      if (inp.cpu > cfg.cpuUpper ∨ inp.mem > cfg.memUpper) ∧
          st.limit > cfg.autoMin then
        (st.limit - 1, inp.now, -1)
      else if inp.cpu < cfg.cpuLower ∧ inp.mem < cfg.memUpper ∧
          st.limit < cfg.autoMax then
        (st.limit + 1, inp.now, 1)
      else
        (st.limit, st.lastChange, 0)
    { state := { limit := clampLimit cfg adjusted.1, lastChange := adjusted.2.1 }
      sleptSeconds := cfg.checkInterval
      notifiedAll := true
      failureBranchFired := false
      resourceAdjustment := adjusted.2.2 }
  else
    { state := st
      sleptSeconds := cfg.checkInterval
      notifiedAll := false
      failureBranchFired := false
      resourceAdjustment := 0 }

/-- A whole run of the controller: fold the tick over a list of
environment inputs. -/
def controller_run (cfg : AutoConfig) (st : CtrlState) : List TickInput → CtrlState
  | [] => st
  | inp :: rest => controller_run cfg (auto_concurrency_tick cfg st inp).state rest

/- ===================== Concurrency Governor =====================
   workers.py, worker_task lines 284-296 (slot acquire / release under
   concurrency_condition) interleaved with controller limit changes.
   `active` models active_workers_ref['value'] (a Python int, so modelled
   as Int to make non-negativity a real statement). -/

/-- The shared state observed under concurrency_condition:
active_workers_ref['value'], concurrency_limit_ref['value'] and
last_change_ref['value']. -/
structure GovState where
  active : Int
  limit : Nat
  lastChange : ℚ
  deriving Repr, DecidableEq

/-- One atomic step under the concurrency_condition lock.

* `acquire`: lines 285-288 — a worker leaves the wait loop only when
  active_workers_ref['value'] < concurrency_limit_ref['value'], then
  increments the active count.
* `release`: lines 293-295 — the finally block decrements the active
  count and notifies all waiters.  A release always follows the matching
  acquire of the same worker (it sits in the finally of the acquire),
  which the guard 0 < active encodes.
* `ctrl`: a tick of auto_concurrency_manager updating the limit and the
  last-change stamp for some environment input. -/
inductive GovStep (cfg : AutoConfig) : GovState → GovState → Prop
  | acquire (s : GovState) :
      s.active < (s.limit : Int) →
      GovStep cfg s { s with active := s.active + 1 }
  | release (s : GovState) :
      0 < s.active →
      GovStep cfg s { s with active := s.active - 1 }
  | ctrl (s : GovState) (inp : TickInput) :
      GovStep cfg s
        { active := s.active
          limit := (auto_concurrency_tick cfg ⟨s.limit, s.lastChange⟩ inp).state.limit
          lastChange := (auto_concurrency_tick cfg ⟨s.limit, s.lastChange⟩ inp).state.lastChange }

/-- States reachable from s0 by any interleaving of worker
acquire/release steps and controller ticks. -/
inductive GovReach (cfg : AutoConfig) (s0 : GovState) : GovState → Prop
  | refl : GovReach cfg s0 s0
  | step {s t : GovState} : GovReach cfg s0 s → GovStep cfg s t → GovReach cfg s0 t

/-- The same steps, but each controller tick is required not to set the
limit below the current active count (the restriction under which the
bounded-concurrency invariant is preserved). -/
inductive GovStepND (cfg : AutoConfig) : GovState → GovState → Prop
  | acquire (s : GovState) :
      s.active < (s.limit : Int) →
      GovStepND cfg s { s with active := s.active + 1 }
  | release (s : GovState) :
      0 < s.active →
      GovStepND cfg s { s with active := s.active - 1 }
  | ctrl (s : GovState) (inp : TickInput) :
      s.active ≤ ((auto_concurrency_tick cfg ⟨s.limit, s.lastChange⟩ inp).state.limit : Int) →
      GovStepND cfg s
        { active := s.active
          limit := (auto_concurrency_tick cfg ⟨s.limit, s.lastChange⟩ inp).state.limit
          lastChange := (auto_concurrency_tick cfg ⟨s.limit, s.lastChange⟩ inp).state.lastChange }

/-- Reachability under the restricted steps. -/
inductive GovReachND (cfg : AutoConfig) (s0 : GovState) : GovState → Prop
  | refl : GovReachND cfg s0 s0
  | step {s t : GovState} : GovReachND cfg s0 s → GovStepND cfg s t → GovReachND cfg s0 t

/-- A concrete controller configuration within the shapes the scraper
config admits (scraper.py lines 123-131): bounds 1..10, default
thresholds 90/65/90, check interval 5s, cooldown 15s. -/
def cfg0 : AutoConfig :=
  { autoMin := 1, autoMax := 10, cpuUpper := 90, cpuLower := 65,
    memUpper := 90, checkInterval := 5, cooldown := 15 }

/- ===================== Collection worker =====================
   workers.py, process_single_store (lines 150-263).  The whole try-body
   from page creation up to building and queueing form_data is the
   per-item fetch collaborator of the spec (`fetch(session, WorkItem) ->
   CollectionResult | raises`); it is modelled as a function from the
   attempt number to `Option CollectionResult` (`none` = the attempt
   raised).  The record fields of form_data other than the store name are
   irrelevant to every claim and are not inspected by the retry loop. -/

/-- One row of urls.csv as loaded by load_default_data (utils.py lines
92-109): every field is always present, an absent CSV column becomes the
empty string. -/
structure WorkItem where
  storeNumber : String
  merchantId : String
  storeName : String
  marketplaceId : String
  deriving Repr, DecidableEq

/-- The form_data record a successful attempt puts on the submission
queue; only the store name is observed by the verified properties. -/
structure CollectionResult where
  store : String
  deriving Repr, DecidableEq

/-- Observable effects of processing one WorkItem: the form_data records
put on the submission queue, the descriptors appended to run_failures,
the increments of metrics["retries"], the names added to
metrics["retry_stores"], the backoff sleeps in order, the number of
timestamps appended to failure_timestamps, and the number of fetch
attempts performed. -/
structure ItemResult where
  queued : List CollectionResult
  failures : List String
  retryIncrements : Nat
  retriedStores : List String
  sleeps : List Nat
  failureTimestamps : Nat
  attempts : Nat
  deriving Repr, DecidableEq

/-- The all-zero effect record. -/
def emptyItemResult : ItemResult :=
  { queued := [], failures := [], retryIncrements := 0, retriedStores := [],
    sleeps := [], failureTimestamps := 0, attempts := 0 }

/-- The `for attempt in range(worker_retry_count)` loop of
process_single_store, by recursion on the number of loop iterations still
available (`remaining = worker_retry_count - attempt`):

* lines 164-168: if marketplace_id is empty, append
  "store (Missing MKID)" to run_failures and return without fetching;
* lines 170-247: otherwise run the fetch; on success queue the form_data
  and return;
* lines 249-257: on an exception, if `attempt < worker_retry_count - 1`
  (equivalently 1 ≤ remaining after this iteration), increment
  metrics["retries"], add the store to metrics["retry_stores"], sleep
  `2 ** attempt` seconds and iterate;
* lines 258-261: on the last attempt append "store (Fail)" to
  run_failures and a timestamp to failure_timestamps. -/
def processAttemptsGo (item : WorkItem) (fetch : Nat → Option CollectionResult) :
    Nat → Nat → ItemResult
  | 0, _ => emptyItemResult
  | remaining + 1, attempt =>
    if item.marketplaceId = "" then
      { emptyItemResult with failures := [item.storeName ++ " (Missing MKID)"] }
    else
      match fetch attempt with
      | some form_data =>
        { emptyItemResult with queued := [form_data], attempts := 1 }
      | none =>
        if 1 ≤ remaining then
          let rest := processAttemptsGo item fetch remaining (attempt + 1)
          { queued := rest.queued
            failures := rest.failures
            retryIncrements := rest.retryIncrements + 1
            retriedStores := item.storeName :: rest.retriedStores
            sleeps := 2 ^ attempt :: rest.sleeps
            failureTimestamps := rest.failureTimestamps
            attempts := rest.attempts + 1 }
        else
          { emptyItemResult with
            failures := [item.storeName ++ " (Fail)"]
            failureTimestamps := 1
            attempts := 1 }

/-- process_single_store: run the retry loop from attempt 0 with
worker_retry_count iterations available. -/
def process_single_store (item : WorkItem) (fetch : Nat → Option CollectionResult)
    (worker_retry_count : Nat) : ItemResult :=
  processAttemptsGo item fetch worker_retry_count 0

/- ===================== Submission worker =====================
   workers.py, http_form_submitter_worker (lines 76-147).  The outcome of
   the external POST for each dequeued form_data is an input. -/

/-- The outcome of `session.post` for one submission: an HTTP status, or
an exception raised anywhere in the iteration body. -/
inductive SubmitOutcome where
  | httpStatus (code : Nat)
  | exn
  deriving Repr, DecidableEq

/-- Observable effects of a submitter draining its queue: the form_data
records passed to log_submission_func (the success records), the value of
progress["current"], the descriptors appended to run_failures, and the
number of queue items marked done. -/
structure SubmitResult where
  logged : List CollectionResult
  progress : Nat
  failures : List String
  processed : Nat
  deriving Repr, DecidableEq

/-- The `while True` body of http_form_submitter_worker applied to the
whole sequence of (form_data, outcome) pairs the worker dequeues before
cancellation:

* dry_run (lines 97-114): log the submission and bump progress;
* status 200 (lines 124-133): log the submission and bump progress;
* any other status (lines 134-137): append
  "store (HTTP Submit Fail status)" to run_failures and keep going;
* an exception (lines 140-143): append "store (Submit Exception)" to
  run_failures and keep going.
Every path reaches the finally block and marks the item done. -/
def http_form_submitter_run (dry_run : Bool) :
    List (CollectionResult × SubmitOutcome) → SubmitResult
  | [] => { logged := [], progress := 0, failures := [], processed := 0 }
  | (form_data, outcome) :: rest =>
    let r := http_form_submitter_run dry_run rest
    if dry_run then
      { logged := form_data :: r.logged, progress := r.progress + 1,
        failures := r.failures, processed := r.processed + 1 }
    else
      match outcome with
      | SubmitOutcome.httpStatus code =>
        if code = 200 then
          { logged := form_data :: r.logged, progress := r.progress + 1,
            failures := r.failures, processed := r.processed + 1 }
        else
          { logged := r.logged, progress := r.progress,
            failures := (form_data.store ++ " (HTTP Submit Fail " ++ toString code ++ ")")
              :: r.failures,
            processed := r.processed + 1 }
      | SubmitOutcome.exn =>
        { logged := r.logged, progress := r.progress,
          failures := (form_data.store ++ " (Submit Exception)") :: r.failures,
          processed := r.processed + 1 }

/-- The per-pair contribution to run_failures: the failure descriptor the
submitter records for a non-success outcome, none for a success. -/
def submitFailureDescr (dry_run : Bool) (p : CollectionResult × SubmitOutcome) :
    Option String :=
  if dry_run then none
  else
    match p.2 with
    | SubmitOutcome.httpStatus code =>
      if code = 200 then none
      else some (p.1.store ++ " (HTTP Submit Fail " ++ toString code ++ ")")
    | SubmitOutcome.exn => some (p.1.store ++ " (Submit Exception)")

/- ===================== Run orchestrator =====================
   scraper.py, process_urls (lines 196-337). -/

/-- The configuration values process_urls reads when sizing its task
pools (scraper.py lines 120-131 and 197). -/
structure ScraperConfig where
  initialConcurrency : Nat
  numFormSubmitters : Nat
  autoEnabled : Bool
  deriving Repr, DecidableEq

/-- The tasks process_urls creates and the jobs it enqueues. -/
structure StartupPlan where
  jobsEnqueued : Nat
  controllerStarted : Bool
  formSubmitters : Nat
  collectionWorkers : Nat
  deriving Repr, DecidableEq

/-- The startup sequencing of process_urls: pool_size is read from
config['initial_concurrency'] (line 197); with no urls_data the job
aborts before starting anything (lines 201-204); otherwise every loaded
store is enqueued (lines 263-264), the controller is started if enabled
(lines 302-308), num_form_submitters submitter tasks are started (lines
312-320) and exactly pool_size worker tasks are started (lines 324-331). -/
def process_urls_startup (cfg : ScraperConfig) (urls_data : List WorkItem) :
    Option StartupPlan :=
  let pool_size := cfg.initialConcurrency
  if urls_data.isEmpty then
    none
  else
    some { jobsEnqueued := urls_data.length
           controllerStarted := cfg.autoEnabled
           formSubmitters := cfg.numFormSubmitters
           collectionWorkers := pool_size }

/- ===================== Whole-run pipeline =====================
   Collection phase over every job, then the submission phase over
   everything the collection phase queued, as sequenced by process_urls
   (populate job_queue; workers drain it; submission_queue.join()). -/

/-- A full run over the loaded jobs: each job carries its own fetch
behaviour, `oc` gives the HTTP outcome of the n-th queued submission. -/
structure RunRecord where
  collectionFailures : List String
  submission : SubmitResult

/-- Drain the job queue through process_single_store, then drain the
submission queue through the submitter pool. -/
def run_pipeline (jobs : List (WorkItem × (Nat → Option CollectionResult)))
    (worker_retry_count : Nat) (oc : Nat → SubmitOutcome) (dry_run : Bool) :
    RunRecord :=
  let results := jobs.map (fun j => process_single_store j.1 j.2 worker_retry_count)
  let queued := (results.map ItemResult.queued).flatten
  let pairs := queued.enum.map (fun p => (p.2, oc p.1))
  { collectionFailures := (results.map ItemResult.failures).flatten
    submission := http_form_submitter_run dry_run pairs }

/- ===================== Concrete instances ===================== -/

/-- The configuration of the concrete scenario in the spec: min_bound 2,
default thresholds (90 / 65 / 90), default check interval and cooldown. -/
def cfgScenario : AutoConfig :=
  { autoMin := 2, autoMax := 30, cpuUpper := 90, cpuLower := 65,
    memUpper := 90, checkInterval := 5, cooldown := 15 }

/-- A concrete loaded store row. -/
def sampleStore : WorkItem := ⟨"001", "m1", "Store A", "MK1"⟩

/-- A concrete two-job load: one store whose fetch succeeds at once, one
whose fetch raises on every attempt. -/
def jobs0 : List (WorkItem × (Nat → Option CollectionResult)) :=
  [(⟨"001", "m1", "Store A", "MK1"⟩, fun _ => some ⟨"Store A"⟩),
   (⟨"002", "m2", "Store B", "MK2"⟩, fun _ => none)]

/- ===================== Helper lemmas ===================== -/

/-- One controller tick keeps the limit inside [auto_min, auto_max]. -/
theorem tick_limit_bounds (cfg : AutoConfig) (st : CtrlState) (inp : TickInput)
    (hmm : cfg.autoMin ≤ cfg.autoMax)
    (hlo : cfg.autoMin ≤ st.limit) (hhi : st.limit ≤ cfg.autoMax) :
    cfg.autoMin ≤ (auto_concurrency_tick cfg st inp).state.limit ∧
    (auto_concurrency_tick cfg st inp).state.limit ≤ cfg.autoMax := by
  have hd : st.limit / 2 ≤ st.limit := Nat.div_le_self _ _
  unfold auto_concurrency_tick clampLimit
  split_ifs <;> simp_all <;> first
    | omega
    | (split_ifs <;> omega)

/-- With at least one loop iteration available, the retry loop yields
exactly one terminal outcome: one queued record or one failure
descriptor, never both and never neither. -/
theorem processAttemptsGo_outcome_count (item : WorkItem)
    (fetch : Nat → Option CollectionResult) :
    ∀ remaining attempt, 1 ≤ remaining →
      (processAttemptsGo item fetch remaining attempt).queued.length +
        (processAttemptsGo item fetch remaining attempt).failures.length = 1 := by
  intro remaining
  induction remaining with
  | zero => intro _ h; omega
  | succ n ih =>
    intro attempt _
    by_cases hmk : item.marketplaceId = ""
    · simp [processAttemptsGo, hmk, emptyItemResult]
    · cases hf : fetch attempt with
      | some r => simp [processAttemptsGo, hmk, hf, emptyItemResult]
      | none =>
        by_cases hr : 1 ≤ n
        · have hrec := ih (attempt + 1) hr
          simp only [processAttemptsGo, hmk, if_false, hf, hr, if_true]
          simpa using hrec
        · simp [processAttemptsGo, hmk, hf, hr, emptyItemResult]

/-- The retry loop performs at most `remaining` fetch attempts. -/
theorem processAttemptsGo_attempts_le (item : WorkItem)
    (fetch : Nat → Option CollectionResult) :
    ∀ remaining attempt,
      (processAttemptsGo item fetch remaining attempt).attempts ≤ remaining := by
  intro remaining
  induction remaining with
  | zero => intro _; simp [processAttemptsGo, emptyItemResult]
  | succ n ih =>
    intro attempt
    by_cases hmk : item.marketplaceId = ""
    · simp [processAttemptsGo, hmk, emptyItemResult]
    · cases hf : fetch attempt with
      | some r => simp [processAttemptsGo, hmk, hf, emptyItemResult]
      | none =>
        by_cases hr : 1 ≤ n
        · have hrec := ih (attempt + 1)
          simp only [processAttemptsGo, hmk, if_false, hf, hr, if_true]
          simpa using Nat.succ_le_succ hrec
        · simp [processAttemptsGo, hmk, hf, hr, emptyItemResult]

/-- Starting at attempt `attempt`, the k-th backoff sleep lasts
`2 ^ (attempt + k)` seconds, and each sleep is matched by one retry-counter
increment and one retried-stores insertion of this store. -/
theorem processAttemptsGo_backoff (item : WorkItem)
    (fetch : Nat → Option CollectionResult) :
    ∀ remaining attempt,
      (processAttemptsGo item fetch remaining attempt).sleeps =
        List.map (fun k => 2 ^ (attempt + k))
          (List.range (processAttemptsGo item fetch remaining attempt).sleeps.length) ∧
      (processAttemptsGo item fetch remaining attempt).retryIncrements =
        (processAttemptsGo item fetch remaining attempt).sleeps.length ∧
      (processAttemptsGo item fetch remaining attempt).retriedStores =
        List.replicate (processAttemptsGo item fetch remaining attempt).sleeps.length
          item.storeName := by
  intro remaining
  induction remaining with
  | zero => intro _; simp [processAttemptsGo, emptyItemResult]
  | succ n ih =>
    intro attempt
    by_cases hmk : item.marketplaceId = ""
    · simp [processAttemptsGo, hmk, emptyItemResult]
    · cases hf : fetch attempt with
      | some r => simp [processAttemptsGo, hmk, hf, emptyItemResult]
      | none =>
        by_cases hr : 1 ≤ n
        · obtain ⟨ha, hb, hc⟩ := ih (attempt + 1)
          simp only [processAttemptsGo, hmk, if_false, hf, hr, if_true]
          have hfun : ((fun k => 2 ^ (attempt + k)) ∘ Nat.succ) =
              (fun k => 2 ^ (attempt + 1 + k)) := by
            funext k
            simp only [Function.comp]
            refine congrArg (2 ^ ·) (by omega)
          refine ⟨?_, ?_, ?_⟩
          · simp only [List.length_cons, List.range_succ_eq_map, List.map_cons,
              List.map_map, Nat.add_zero, hfun]
            exact congrArg (List.cons (2 ^ attempt)) ha
          · simp [hb]
          · simp [hc, List.replicate_succ]
        · simp [processAttemptsGo, hmk, hf, hr, emptyItemResult]

/-- Characterisation of a submitter drain: the run_failures entries are
exactly the failure descriptors of the non-success outcomes, every
dequeued item is marked done, and logged successes plus failures
partition the queue. -/
theorem http_form_submitter_run_spec (dry_run : Bool) :
    ∀ pairs : List (CollectionResult × SubmitOutcome),
      (http_form_submitter_run dry_run pairs).failures =
        pairs.filterMap (submitFailureDescr dry_run) ∧
      (http_form_submitter_run dry_run pairs).processed = pairs.length ∧
      (http_form_submitter_run dry_run pairs).logged.length +
        (http_form_submitter_run dry_run pairs).failures.length = pairs.length := by
  intro pairs
  induction pairs with
  | nil => simp [http_form_submitter_run]
  | cons p rest ih =>
    obtain ⟨ha, hb, hc⟩ := ih
    rw [ha] at hc
    obtain ⟨form_data, outcome⟩ := p
    cases dry_run with
    | true =>
      simp only [http_form_submitter_run, submitFailureDescr, ha, hb, if_true,
        List.filterMap_cons, List.length_cons, List.length_map]
      simp
      omega
    | false =>
      cases outcome with
      | httpStatus code =>
        by_cases h200 : code = 200
        · simp [http_form_submitter_run, submitFailureDescr, h200, ha, hb]
          omega
        · simp [http_form_submitter_run, submitFailureDescr, h200, ha, hb]
          omega
      | exn =>
        simp [http_form_submitter_run, submitFailureDescr, ha, hb]
        omega

/-- Across the collection phase, queued records plus recorded collection
failures account for every job exactly once. -/
theorem collect_outcome_total (worker_retry_count : Nat) (h : 0 < worker_retry_count) :
    ∀ jobs : List (WorkItem × (Nat → Option CollectionResult)),
      ((jobs.map (fun j => process_single_store j.1 j.2 worker_retry_count)).map
          ItemResult.queued).flatten.length +
        ((jobs.map (fun j => process_single_store j.1 j.2 worker_retry_count)).map
          ItemResult.failures).flatten.length = jobs.length := by
  intro jobs
  induction jobs with
  | nil => simp
  | cons j rest ih =>
    have hj := processAttemptsGo_outcome_count j.1 j.2 worker_retry_count 0 h
    simp only [process_single_store] at *
    simp only [List.map_cons, List.flatten_cons, List.length_append, List.length_cons]
    omega

/- ===================== Claim theorems ===================== -/

/-- Claim C1: on a controller tick with failure_rate > 0.05 and at least
cooldown seconds since the last change, the controller sets the limit to
max(min_bound, floor(limit / 2)), stamps last_change to now, notifies all
waiters, sleeps 2 x cooldown before the next tick, and applies no
resource-branch adjustment in that tick. -/
theorem C1_failure_branch (cfg : AutoConfig) (st : CtrlState) (inp : TickInput)
    (hrate : failure_rate st.limit inp.recentFailures > 1/20)
    (hcool : inp.now - st.lastChange ≥ cfg.cooldown) :
    (auto_concurrency_tick cfg st inp).state.limit = max cfg.autoMin (st.limit / 2) ∧
    (auto_concurrency_tick cfg st inp).state.lastChange = inp.now ∧
    (auto_concurrency_tick cfg st inp).notifiedAll = true ∧
    (auto_concurrency_tick cfg st inp).sleptSeconds = cfg.cooldown * 2 ∧
    (auto_concurrency_tick cfg st inp).failureBranchFired = true ∧
    (auto_concurrency_tick cfg st inp).resourceAdjustment = 0 := by
  unfold auto_concurrency_tick
  rw [if_pos ⟨hrate, hcool⟩]
  exact ⟨rfl, rfl, rfl, rfl, rfl, rfl⟩

/-- Witness for C1: limit 10 with 20 recent failures (rate 1/15 > 1/20)
and an elapsed cooldown halves to 5 = max 1 (10 / 2). -/
theorem C1_failure_branch_witness :
    (auto_concurrency_tick cfg0 ⟨10, 0⟩ ⟨15, 20, 50, 50⟩).state.limit
        = max cfg0.autoMin (10 / 2) ∧
    (auto_concurrency_tick cfg0 ⟨10, 0⟩ ⟨15, 20, 50, 50⟩).state.lastChange = 15 ∧
    (auto_concurrency_tick cfg0 ⟨10, 0⟩ ⟨15, 20, 50, 50⟩).notifiedAll = true ∧
    (auto_concurrency_tick cfg0 ⟨10, 0⟩ ⟨15, 20, 50, 50⟩).sleptSeconds
        = cfg0.cooldown * 2 ∧
    (auto_concurrency_tick cfg0 ⟨10, 0⟩ ⟨15, 20, 50, 50⟩).failureBranchFired = true ∧
    (auto_concurrency_tick cfg0 ⟨10, 0⟩ ⟨15, 20, 50, 50⟩).resourceAdjustment = 0 :=
  C1_failure_branch cfg0 ⟨10, 0⟩ ⟨15, 20, 50, 50⟩
    (by norm_num [failure_rate, estimated_throughput])
    (by norm_num [cfg0])

/-- Claim C2 as stated is false: a controller halving can push the limit
below the current active count, so a reachable state observed under the
lock violates active_count less-or-equal current_limit (the trace: two
acquires at limit 2, then a failure-branch tick halving the limit to 1
while both workers stay active). -/
theorem C2_bounded_concurrency_cex :
    ¬ (∀ s : GovState, GovReach cfg0 ⟨0, 2, 0⟩ s →
        0 ≤ s.active ∧ s.active ≤ (s.limit : Int)) := by
  intro h
  have t : (auto_concurrency_tick cfg0 ⟨2, 0⟩ ⟨15, 4, 0, 0⟩).state = ⟨1, 15⟩ := by
    norm_num [auto_concurrency_tick, failure_rate, estimated_throughput, cfg0]
  have s1 : GovStep cfg0 ⟨0, 2, 0⟩ ⟨1, 2, 0⟩ := GovStep.acquire ⟨0, 2, 0⟩ (by decide)
  have s2 : GovStep cfg0 ⟨1, 2, 0⟩ ⟨2, 2, 0⟩ := GovStep.acquire ⟨1, 2, 0⟩ (by decide)
  have s3 : GovStep cfg0 ⟨2, 2, 0⟩ ⟨2, 1, 15⟩ := by
    have h3 := @GovStep.ctrl cfg0 ⟨2, 2, 0⟩ ⟨15, 4, 0, 0⟩
    simpa [t] using h3
  have hr : GovReach cfg0 ⟨0, 2, 0⟩ ⟨2, 1, 15⟩ :=
    GovReach.step (GovReach.step (GovReach.step GovReach.refl s1) s2) s3
  have hle := (h _ hr).2
  norm_num at hle

/-- Claim C2 amended: 0 is a lower bound of active_count in every
interleaving, and active_count stays at most current_limit in every
interleaving whose controller ticks never set the limit below the current
active count; after a deeper cut, already-admitted workers keep running
until they release (the governor does not preempt). -/
theorem C2_bounded_concurrency_amended (cfg : AutoConfig) (s0 : GovState)
    (h0 : 0 ≤ s0.active) (hb : s0.active ≤ (s0.limit : Int)) :
    (∀ s, GovReach cfg s0 s → 0 ≤ s.active) ∧
    (∀ s, GovReachND cfg s0 s → 0 ≤ s.active ∧ s.active ≤ (s.limit : Int)) := by
  constructor
  · intro s hs
    induction hs with
    | refl => exact h0
    | step hr hst ih => cases hst <;> simp_all <;> omega
  · intro s hs
    induction hs with
    | refl => exact ⟨h0, hb⟩
    | step hr hst ih => cases hst <;> simp_all <;> omega

/-- Witness for the amended C2 at the initial state of the
counterexample configuration. -/
theorem C2_bounded_concurrency_amended_witness :
    0 ≤ (GovState.mk 0 2 0).active :=
  (C2_bounded_concurrency_amended cfg0 ⟨0, 2, 0⟩ (by norm_num) (by norm_num)).1
    _ GovReach.refl

/-- Claim C3: over any sequence of controller ticks under any CPU,
memory and failure inputs, the limit never leaves
[min_concurrency, max_concurrency] (for a well-formed configuration and
an in-range starting limit). -/
theorem C3_limit_bounds (cfg : AutoConfig) (st : CtrlState) (inps : List TickInput)
    (hmm : cfg.autoMin ≤ cfg.autoMax)
    (hlo : cfg.autoMin ≤ st.limit) (hhi : st.limit ≤ cfg.autoMax) :
    cfg.autoMin ≤ (controller_run cfg st inps).limit ∧
    (controller_run cfg st inps).limit ≤ cfg.autoMax := by
  induction inps generalizing st with
  | nil => exact ⟨hlo, hhi⟩
  | cons inp rest ih =>
    obtain ⟨a, b⟩ := tick_limit_bounds cfg st inp hmm hlo hhi
    exact ih _ a b

/-- Witness for C3: a failure-branch tick then a resource tick starting
from limit 10 stay within [1, 10]. -/
theorem C3_limit_bounds_witness :
    cfg0.autoMin ≤ (controller_run cfg0 ⟨10, 0⟩ [⟨15, 20, 50, 50⟩, ⟨40, 0, 95, 20⟩]).limit ∧
    (controller_run cfg0 ⟨10, 0⟩ [⟨15, 20, 50, 50⟩, ⟨40, 0, 95, 20⟩]).limit ≤ cfg0.autoMax :=
  C3_limit_bounds cfg0 ⟨10, 0⟩ [⟨15, 20, 50, 50⟩, ⟨40, 0, 95, 20⟩]
    (by norm_num [cfg0]) (by norm_num [cfg0]) (by norm_num [cfg0])

/-- Claim C4: after the job queue is drained and the submission queue
joined, logged submission successes plus recorded failure descriptors
(collection and submission) account for every enqueued WorkItem exactly
once. -/
theorem C4_drain_completeness (jobs : List (WorkItem × (Nat → Option CollectionResult)))
    (worker_retry_count : Nat) (oc : Nat → SubmitOutcome)
    (h : 0 < worker_retry_count) :
    (run_pipeline jobs worker_retry_count oc false).submission.logged.length +
      ((run_pipeline jobs worker_retry_count oc false).collectionFailures.length +
        (run_pipeline jobs worker_retry_count oc false).submission.failures.length) =
      jobs.length := by
  have htot := collect_outcome_total worker_retry_count h jobs
  have hsub := (http_form_submitter_run_spec false
    ((((jobs.map (fun j => process_single_store j.1 j.2 worker_retry_count)).map
        ItemResult.queued).flatten).enum.map
      (fun p => (p.2, oc p.1)))).2.2
  have hlen : ((((jobs.map (fun j => process_single_store j.1 j.2 worker_retry_count)).map
        ItemResult.queued).flatten).enum.map (fun p => (p.2, oc p.1))).length =
      (((jobs.map (fun j => process_single_store j.1 j.2 worker_retry_count)).map
        ItemResult.queued).flatten).length := by
    simp
  simp only [run_pipeline]
  omega

/-- Witness for C4: two jobs (one fetch success whose submission then
fails with HTTP 500, one fetch that exhausts its retries) still account
for exactly 2 outcomes. -/
theorem C4_drain_completeness_witness :
    (run_pipeline jobs0 3 (fun _ => SubmitOutcome.httpStatus 500) false).submission.logged.length +
      ((run_pipeline jobs0 3 (fun _ => SubmitOutcome.httpStatus 500) false).collectionFailures.length +
        (run_pipeline jobs0 3 (fun _ => SubmitOutcome.httpStatus 500) false).submission.failures.length) =
      jobs0.length :=
  C4_drain_completeness jobs0 3 (fun _ => SubmitOutcome.httpStatus 500) (by norm_num)

/-- Claim C5: for every WorkItem and every sequence of fetch outcomes,
at most retry_count fetch attempts are performed and the item yields
exactly one terminal outcome, one queued success record or one recorded
failure, never both and never neither. -/
theorem C5_single_terminal_outcome (item : WorkItem)
    (fetch : Nat → Option CollectionResult) (worker_retry_count : Nat)
    (h : 0 < worker_retry_count) :
    (process_single_store item fetch worker_retry_count).attempts ≤ worker_retry_count ∧
    (process_single_store item fetch worker_retry_count).queued.length +
      (process_single_store item fetch worker_retry_count).failures.length = 1 :=
  ⟨processAttemptsGo_attempts_le item fetch worker_retry_count 0,
   processAttemptsGo_outcome_count item fetch worker_retry_count 0 h⟩

/-- Witness for C5: a store whose fetch raises on all 3 attempts makes
3 attempts and exactly one recorded failure. -/
theorem C5_single_terminal_outcome_witness :
    (process_single_store ⟨"001", "m1", "Store A", "MK1"⟩ (fun _ => none) 3).attempts ≤ 3 ∧
    (process_single_store ⟨"001", "m1", "Store A", "MK1"⟩ (fun _ => none) 3).queued.length +
      (process_single_store ⟨"001", "m1", "Store A", "MK1"⟩ (fun _ => none) 3).failures.length
        = 1 :=
  C5_single_terminal_outcome ⟨"001", "m1", "Store A", "MK1"⟩ (fun _ => none) 3
    (by norm_num)

/-- Claim C6: within the retry loop the k-th backoff sleep (k from 0)
lasts 2 ^ k seconds, and each sleep is preceded by exactly one increment
of the shared retry counter and one insertion of the store into the
retried-stores set. -/
theorem C6_backoff_law (item : WorkItem) (fetch : Nat → Option CollectionResult)
    (worker_retry_count : Nat) :
    (process_single_store item fetch worker_retry_count).sleeps =
      List.map (fun k => 2 ^ k)
        (List.range (process_single_store item fetch worker_retry_count).sleeps.length) ∧
    (process_single_store item fetch worker_retry_count).retryIncrements =
      (process_single_store item fetch worker_retry_count).sleeps.length ∧
    (process_single_store item fetch worker_retry_count).retriedStores =
      List.replicate (process_single_store item fetch worker_retry_count).sleeps.length
        item.storeName := by
  have h := processAttemptsGo_backoff item fetch worker_retry_count 0
  simpa [process_single_store] using h

/-- Claim C7: on a tick where the failure branch did not fire and the
cooldown has elapsed, hot CPU or memory with limit above min_bound
decrements by exactly 1, otherwise cool CPU and memory with limit below
max_bound increments by exactly 1; in particular CPU 95 percent with
limit 8 over min_bound 2 and no recent failures yields limit 7. -/
theorem C7_resource_branch (cfg : AutoConfig) (st : CtrlState) (inp : TickInput)
    (hnf : ¬ failure_rate st.limit inp.recentFailures > 1/20)
    (hcool : inp.now - st.lastChange ≥ cfg.cooldown)
    (hlo : cfg.autoMin ≤ st.limit) (hhi : st.limit ≤ cfg.autoMax) :
    (((inp.cpu > cfg.cpuUpper ∨ inp.mem > cfg.memUpper) ∧ st.limit > cfg.autoMin) →
      (auto_concurrency_tick cfg st inp).state.limit = st.limit - 1) ∧
    ((¬ ((inp.cpu > cfg.cpuUpper ∨ inp.mem > cfg.memUpper) ∧ st.limit > cfg.autoMin)) →
      (inp.cpu < cfg.cpuLower ∧ inp.mem < cfg.memUpper ∧ st.limit < cfg.autoMax) →
      (auto_concurrency_tick cfg st inp).state.limit = st.limit + 1) ∧
    (auto_concurrency_tick cfgScenario ⟨8, 0⟩ ⟨15, 0, 95, 50⟩).state.limit = 7 := by
  have hfb : ¬ (failure_rate st.limit inp.recentFailures > 1/20 ∧
      inp.now - st.lastChange ≥ cfg.cooldown) := fun h => hnf h.1
  refine ⟨?_, ?_, ?_⟩
  · intro hdec
    unfold auto_concurrency_tick clampLimit
    rw [if_neg hfb, if_pos hcool, if_pos hdec]
    simp only
    split_ifs <;> omega
  · intro hndec hinc
    unfold auto_concurrency_tick clampLimit
    rw [if_neg hfb, if_pos hcool, if_neg hndec, if_pos hinc]
    simp only
    split_ifs <;> omega
  · norm_num [auto_concurrency_tick, failure_rate, estimated_throughput,
      cfgScenario, clampLimit]

/-- Witness for C7: the spec scenario, CPU 95 percent, limit 8, min
bound 2, no failures, one tick decrements to 7. -/
theorem C7_resource_branch_witness :
    (auto_concurrency_tick cfgScenario ⟨8, 0⟩ ⟨15, 0, 95, 50⟩).state.limit = 8 - 1 :=
  (C7_resource_branch cfgScenario ⟨8, 0⟩ ⟨15, 0, 95, 50⟩
    (by norm_num [failure_rate, estimated_throughput])
    (by norm_num [cfgScenario]) (by norm_num [cfgScenario])
    (by norm_num [cfgScenario])).1
    (by norm_num [cfgScenario])

/-- Claim C8 as stated is false: with one loaded job and
initial_concurrency 30, process_urls starts 30 collection workers, not
min(30, 1) = 1 — the pool is never sized down to the job count. -/
theorem C8_pool_size_cex :
    (process_urls_startup ⟨30, 2, false⟩ [sampleStore]).map StartupPlan.collectionWorkers
        = some 30 ∧
    min 30 [sampleStore].length = 1 ∧ (30 : Nat) ≠ 1 := by
  refine ⟨?_, ?_, ?_⟩ <;> simp [process_urls_startup, sampleStore]

/-- Claim C8 amended: whenever at least one job is loaded, the number of
collection worker tasks started equals configured_pool_size
(initial_concurrency) exactly, independent of the number of jobs; with no
jobs the run aborts before starting any worker. -/
theorem C8_pool_size_amended (cfg : ScraperConfig) (urls_data : List WorkItem)
    (h : urls_data ≠ []) :
    (process_urls_startup cfg urls_data).map StartupPlan.collectionWorkers =
      some cfg.initialConcurrency := by
  cases urls_data with
  | nil => exact absurd rfl h
  | cons a l => simp [process_urls_startup]

/-- Witness for the amended C8: one job, pool size 30, 30 workers. -/
theorem C8_pool_size_amended_witness :
    (process_urls_startup ⟨30, 2, false⟩ [sampleStore]).map StartupPlan.collectionWorkers =
      some (ScraperConfig.mk 30 2 false).initialConcurrency :=
  C8_pool_size_amended ⟨30, 2, false⟩ [sampleStore] (List.cons_ne_nil _ _)

/-- Claim C9: a submission receiving a non-200 HTTP outcome appends
exactly one failure descriptor carrying the store name and the status
code, the worker does not terminate, and every remaining queued
submission is still processed. -/
theorem C9_submission_failure_recorded (pre post : List (CollectionResult × SubmitOutcome))
    (form_data : CollectionResult) (code : Nat) (h : code ≠ 200) :
    (http_form_submitter_run false
        (pre ++ (form_data, SubmitOutcome.httpStatus code) :: post)).processed =
      pre.length + 1 + post.length ∧
    (http_form_submitter_run false
        (pre ++ (form_data, SubmitOutcome.httpStatus code) :: post)).failures =
      (http_form_submitter_run false pre).failures ++
        (form_data.store ++ " (HTTP Submit Fail " ++ toString code ++ ")") ::
          (http_form_submitter_run false post).failures := by
  obtain ⟨ha, hb, -⟩ := http_form_submitter_run_spec false
    (pre ++ (form_data, SubmitOutcome.httpStatus code) :: post)
  obtain ⟨hpre, -, -⟩ := http_form_submitter_run_spec false pre
  obtain ⟨hpost, -, -⟩ := http_form_submitter_run_spec false post
  constructor
  · rw [hb]
    simp
    omega
  · rw [ha, hpre, hpost, List.filterMap_append, List.filterMap_cons]
    simp [submitFailureDescr, h]

/-- Witness for C9: Store B failing with HTTP 500 between two successes
adds exactly one descriptor and all three submissions are processed. -/
theorem C9_submission_failure_recorded_witness :
    (http_form_submitter_run false
        ([(⟨"Store A"⟩, SubmitOutcome.httpStatus 200)] ++
          (⟨"Store B"⟩, SubmitOutcome.httpStatus 500) ::
            [(⟨"Store C"⟩, SubmitOutcome.httpStatus 200)])).processed = 1 + 1 + 1 ∧
    (http_form_submitter_run false
        ([(⟨"Store A"⟩, SubmitOutcome.httpStatus 200)] ++
          (⟨"Store B"⟩, SubmitOutcome.httpStatus 500) ::
            [(⟨"Store C"⟩, SubmitOutcome.httpStatus 200)])).failures =
      (http_form_submitter_run false [(⟨"Store A"⟩, SubmitOutcome.httpStatus 200)]).failures ++
        ("Store B" ++ " (HTTP Submit Fail " ++ toString 500 ++ ")") ::
          (http_form_submitter_run false [(⟨"Store C"⟩, SubmitOutcome.httpStatus 200)]).failures :=
  C9_submission_failure_recorded [(⟨"Store A"⟩, SubmitOutcome.httpStatus 200)]
    [(⟨"Store C"⟩, SubmitOutcome.httpStatus 200)] ⟨"Store B"⟩ 500 (by norm_num)

/-- Claim C10: a WorkItem with an empty marketplace_id yields exactly the
single failure descriptor store (Missing MKID) on the first attempt: no
fetch, no retry-counter increment, no backoff sleep and no
failure-window timestamp. -/
theorem C10_missing_mkid (item : WorkItem) (fetch : Nat → Option CollectionResult)
    (worker_retry_count : Nat) (hmk : item.marketplaceId = "")
    (h : 0 < worker_retry_count) :
    process_single_store item fetch worker_retry_count =
      { emptyItemResult with failures := [item.storeName ++ " (Missing MKID)"] } := by
  obtain ⟨n, rfl⟩ : ∃ n, worker_retry_count = n + 1 := ⟨worker_retry_count - 1, by omega⟩
  simp [process_single_store, processAttemptsGo, hmk]

/-- Witness for C10: a store with an empty marketplace id is recorded as
Missing MKID with zero attempts. -/
theorem C10_missing_mkid_witness :
    process_single_store ⟨"001", "m1", "Store A", ""⟩ (fun _ => none) 3 =
      { emptyItemResult with failures := ["Store A (Missing MKID)"] } :=
  C10_missing_mkid ⟨"001", "m1", "Store A", ""⟩ (fun _ => none) 3 rfl (by norm_num)
